import Mathlib

/-!
Shallow embedding of the `depthtection` node (`src/src/depthtection.cpp`,
`src/include/depthtection/depthtection.hpp`): the depth projector
`get_point_from_depth`, the detection handler `detectionCallback` with its
candidate match/update step, and the point-cloud handler `pointCloudCallback`
with `updateCandidateFromPointCloud`.

Modelling conventions:
* machine floating-point values are modelled as exact rationals (ℚ); the two
  special values the code tests for (`0` and `+∞` in depth samples,
  non-finite coordinates after a transform) are modelled explicitly;
* comparisons of Euclidean norms against a bound are embedded as the
  equivalent comparison of the squared norm against the squared bound,
  keeping all arithmetic in ℚ;
* ROS subscriptions, logging and message headers are out of scope (the spec
  lists them as external collaborators); a handler is a function from the
  node state and the message payload to a new state, together with what it
  publishes;
* the transform buffer is external: a `lookupTransform` result is passed in
  as an `Option` (`none` = the lookup throws `tf2::TransformException`);
* C++ undefined behaviour that the control flow can actually reach (reading a
  pixel of an empty `cv::Mat`, dereferencing a null `shared_ptr`) is made
  explicit as an `Except` error, and an exception escaping the handler
  uncaught is likewise an `Except` error.
-/

/-- A 3D point with exact rational coordinates (embedding of `tf2::Vector3` /
`Eigen::Vector3d` / `cv::Vec3f` values). -/
structure Point3 where
  x : ℚ
  y : ℚ
  z : ℚ
deriving DecidableEq, Repr

/-- Squared Euclidean distance.  The source compares `.norm() > 0.5` (resp.
`< 0.5`, `< thr`); for nonnegative bounds this is equivalent to comparing the
squared norm against the squared bound. -/
def distSq (p q : Point3) : ℚ :=
  (p.x - q.x) ^ 2 + (p.y - q.y) ^ 2 + (p.z - q.z) ^ 2

/-- A depth sample read from the 32-bit float depth image: either a finite
value or `+∞` (the two cases `get_point_from_depth` distinguishes). -/
inductive DVal where
  | fin (d : ℚ)
  | inf
deriving DecidableEq, Repr

/-- Embedding of the free function `get_point_from_depth(depth_img, point, K, D)`
(src/src/depthtection.cpp:194-215).  The depth image is a pixel-indexed map of
depth samples, read at `(row = point.y, col = point.x)` exactly as
`depth_img.at<float>(point.y, point.x)`.  A depth of `0` or `+∞` yields the
sentinel zero point.  Otherwise the pinhole back-projection is applied; the
distortion coefficients `D` are never used on this path (the declared
`point_undistorted` is dead code in the source). -/
def get_point_from_depth (depth_img : ℤ → ℤ → DVal) (px py : ℤ)
    (fx fy cx cy : ℚ) : Point3 :=
  match depth_img py px with
  | DVal.inf => ⟨0, 0, 0⟩
  | DVal.fin d =>
    if d = 0 then ⟨0, 0, 0⟩
    else ⟨((px : ℚ) - cx) * d / fx, ((py : ℚ) - cy) * d / fy, d⟩

/-- Pinhole forward projection with the same intrinsics, as stated by the
spec's projection/back-projection consistency property (§8): recover
`(u, v, d)` from a sensor-frame point. -/
def reproject (p : Point3) (fx fy cx cy : ℚ) : ℚ × ℚ × ℚ :=
  (p.x * fx / p.z + cx, p.y * fy / p.z + cy, p.z)

/-- A tracked candidate.  `candidate.hpp` is not under `src/`; the fields are
those the sources and the spec's data model use: sequential `id`, running
`confidence`, `class_name`, and the stored position `point` (the call sites
write `candidate->point`, `candidate->x()` …; the spec calls these the
candidate's position fields). -/
structure Candidate where
  id : ℕ
  confidence : ℚ
  class_name : String
  point : Point3
deriving DecidableEq, Repr

/-- Modelled from the spec: `match_candidate` is declared in `candidate.hpp`,
which is not in the tree.  Spec §4.3: scan all stored candidates and select
the first candidate of the same class whose Euclidean distance to the
observed point is below the threshold; absence of a match is not an error.
Returns the index of the matched candidate. -/
def match_candidate (cs : List Candidate) (cls : String) (q : Point3)
    (thr : ℚ) : Option ℕ :=
  cs.findIdx? fun c => c.class_name = cls ∧ distSq c.point q < thr ^ 2

/-- In-place update of the matched candidate (depthtection.cpp:157-158):
`confidence = (confidence + score) / 2` and the position is overwritten. -/
def updateMatched (score : ℚ) (q : Point3) :
    List Candidate → ℕ → List Candidate
  | [], _ => []
  | c :: cs, 0 =>
      { c with confidence := (c.confidence + score) / 2, point := q } :: cs
  | c :: cs, i + 1 => c :: updateMatched score q cs i

/-- The match-or-create step of `detectionCallback` (depthtection.cpp:151-163):
`match_candidate(candidates_, class_id, point, 1)`; on a miss a new candidate
`Candidate(candidates_.size() + 1, score, class_id, point)` is appended, on a
hit the matched candidate is updated in place. -/
def candidateUpdateStep (cs : List Candidate) (cls : String) (score : ℚ)
    (q : Point3) : List Candidate :=
  match match_candidate cs cls q 1 with
  | none => cs ++ [⟨cs.length + 1, score, cls, q⟩]
  | some i => updateMatched score q cs i

/-- One entry of a `vision_msgs::msg::Detection2DArray`: the first hypothesis'
class and score, and the bounding-box center truncated to integer pixel
coordinates (the call site builds `cv::Point(center.x, center.y)`). -/
structure Detection where
  class_id : String
  score : ℚ
  center_x : ℤ
  center_y : ℤ
deriving DecidableEq, Repr

/-- The per-detection body of `detectionCallback` after its data guard
(depthtection.cpp:134-163): back-project the bbox center through the depth
image (`extractEstimatedPoint`), then transform the point to the `earth`
frame (`none` = the `lookupTransform` throws and the handler returns), then
run the match-or-create step.  No check of the sentinel zero point happens
between the projection and the matcher. -/
def processDetection (depth : ℤ → ℤ → DVal) (fx fy cx cy : ℚ)
    (tfE : Option (Point3 → Point3)) (cs : List Candidate)
    (det : Detection) : Option (List Candidate) :=
  let p := get_point_from_depth depth det.center_x det.center_y fx fy cx cy
  match tfE with
  | none => none
  | some T => some (candidateUpdateStep cs det.class_id det.score (T p))

/-- Undefined behaviour reachable in `detectionCallback`: reading
`depth_img_.at<float>` while `depth_img_` is an empty `cv::Mat`. -/
inductive DetErr where
  | emptyDepthRead
deriving DecidableEq, Repr

/-- The detection loop of `detectionCallback` (depthtection.cpp:112-164).
Per detection: a non-matching class is skipped (`continue`); then the guard
`if (!depth_img_.empty() || !haveCalibration_) return;` is evaluated exactly
as written in the source (note the negated emptiness test); past the guard
the depth image is read (an empty image makes that read undefined behaviour,
modelled as `DetErr.emptyDepthRead`), and a transform failure returns from
the whole handler keeping the candidates accumulated so far. -/
def detLoop (dimg : Option (ℤ → ℤ → DVal)) (haveCalib : Bool)
    (fx fy cx cy : ℚ) (target : String) (tfE : Option (Point3 → Point3)) :
    List Candidate → List Detection → Except DetErr (List Candidate)
  | cs, [] => .ok cs
  | cs, det :: ds =>
    if det.class_id ≠ target then
      detLoop dimg haveCalib fx fy cx cy target tfE cs ds
    else if dimg.isSome || !haveCalib then .ok cs
    else
      match dimg with
      | none => .error DetErr.emptyDepthRead
      | some depth =>
        match processDetection depth fx fy cx cy tfE cs det with
        | none => .ok cs
        | some cs' => detLoop dimg haveCalib fx fy cx cy target tfE cs' ds

/-- The state `detectionCallback` touches: the cached RGB image (present or
not), the cached depth image (`none` = empty `cv::Mat`), the calibration
flag, the intrinsics, and the candidate store. -/
structure DetState where
  rgb_img : Bool
  depth_img : Option (ℤ → ℤ → DVal)
  haveCalibration : Bool
  fx : ℚ
  fy : ℚ
  cx : ℚ
  cy : ℚ
  candidates : List Candidate

/-- Embedding of `Depthtection::detectionCallback` (depthtection.cpp:105-170):
return at once when no RGB image has arrived, otherwise run the detection
loop over the message and store the resulting candidate list. -/
def detectionCallback (s : DetState) (target : String)
    (tfE : Option (Point3 → Point3)) (dets : List Detection) :
    Except DetErr DetState :=
  if s.rgb_img = false then .ok s
  else
    match detLoop s.depth_img s.haveCalibration s.fx s.fy s.cx s.cy target
        tfE s.candidates dets with
    | .error e => .error e
    | .ok cs => .ok { s with candidates := cs }

/-- The `Phase` enumeration of the header (depthtection.hpp:50-56). -/
inductive Phase where
  | NO_DETECTION
  | VISUAL_DETECTION_WITHOUT_DEPTH
  | VISUAL_DETECTION_WITH_DEPTH
  | ONLY_DEPTH_DETECTION
  | TOO_NEAR_TO_DETECT
deriving DecidableEq, Repr

/-- Failures of `pointCloudCallback` that escape the handler: dereferencing
the null `best_candidate_` shared pointer (undefined behaviour), and the
third `lookupTransform` (earth ← base_frame, depthtection.cpp:302-305)
throwing outside of any try/catch. -/
inductive PCErr where
  | nullCandidateDeref
  | uncaughtTfException
deriving DecidableEq, Repr

/-- The max-z scan of `updateCandidateFromPointCloud`
(depthtection.cpp:229-236): running maximum with strict `>`, so the first
point attaining the maximum wins. -/
def maxZAux (cur : Point3) : List Point3 → Point3
  | [] => cur
  | p :: ps => maxZAux (if cur.z < p.z then p else cur) ps

/-- The point `cloud->points[max_idx]` selected by the scan.  The source
initialises `max_idx = 0`, so an empty cloud would read index 0; that case is
unreachable behind the ≥ 20 points guard and is given a default here. -/
def maxZPoint : List Point3 → Point3
  | [] => ⟨0, 0, 0⟩
  | p :: ps => maxZAux p ps

/-- Embedding of `Depthtection::updateCandidateFromPointCloud`
(depthtection.cpp:217-242): update the no-detection counter, overwrite the
candidate's position with the max-z cloud point, and return `true` (the
function has no failing path). -/
def updateCandidateFromPointCloud (new_detection : Bool) (n_images : ℕ)
    (c : Candidate) (cloud : List Point3) : Bool × Candidate × ℕ :=
  let n' := if new_detection then 0 else n_images + 1
  (true, { c with point := maxZPoint cloud }, n')

/-- The filtering loop of `pointCloudCallback` (depthtection.cpp:268-291).
`T` maps a sensor-frame point to its earth-frame image together with a flag
telling whether all three transformed coordinates are finite (the code's
`std::isfinite` checks).  A non-finite point is skipped before
`best_candidate_` is dereferenced; for a finite point the dereference happens
with no null guard, then points farther than 0.5 from the candidate are
dropped and the rest are appended in order. -/
def filterLoop (T : Point3 → Point3 × Bool) (best : Option Point3) :
    List Point3 → Except PCErr (List Point3)
  | [] => .ok []
  | p :: ps =>
    if (T p).2 = false then filterLoop T best ps
    else
      match best with
      | none => .error PCErr.nullCandidateDeref
      | some c =>
        if distSq (T p).1 c > 1 / 4 then filterLoop T best ps
        else
          match filterLoop T best ps with
          | .error e => .error e
          | .ok rest => .ok ((T p).1 :: rest)

/-- The surviving points of a cloud, as the spec describes them: earth-frame
transform finite in every coordinate and within Euclidean distance 0.5 of the
(pre-update) best candidate position `c`. -/
def surviving (T : Point3 → Point3 × Bool) (c : Point3)
    (cloud : List Point3) : List Point3 :=
  cloud.filterMap fun p =>
    if (T p).2 = true ∧ distSq (T p).1 c ≤ 1 / 4 then some (T p).1 else none

/-- The state `pointCloudCallback` touches: the phase, the best-candidate
pointer (`none` = null), and the counters `updateCandidateFromPointCloud`
maintains. -/
structure PCState where
  current_phase : Phase
  best_candidate : Option Candidate
  new_detection : Bool
  n_images_without_detection : ℕ
deriving DecidableEq, Repr

/-- Embedding of `Depthtection::pointCloudCallback` (depthtection.cpp:244-330).
Inputs beside the state: the cloud; `earthTf`, the guarded
`lookupTransform("earth", cloud frame)` (as a per-point transform-with-
finiteness, `none` = throws, caught); `baseTfOk`, whether the guarded
`lookupTransform(base_frame_, cloud frame)` succeeds (its value is only used
for the dead local `pointBase`); and `earthBaseTf`, the translation of the
unguarded `lookupTransform("earth", base_frame_)` (`none` = throws, and no
try/catch surrounds it).  The result is the new state plus the filtered cloud
published on `cloud_filtered`, if any. -/
def pointCloudCallback (s : PCState) (cloud : List Point3)
    (earthTf : Option (Point3 → Point3 × Bool)) (baseTfOk : Bool)
    (earthBaseTf : Option Point3) :
    Except PCErr (PCState × Option (List Point3)) :=
  if s.current_phase = Phase.VISUAL_DETECTION_WITH_DEPTH ∨
      s.current_phase ≠ Phase.ONLY_DEPTH_DETECTION then
    .ok (s, none)
  else
    match earthTf, baseTfOk with
    | some T, true =>
      (match filterLoop T (s.best_candidate.map Candidate.point) cloud with
       | .error e => .error e
       | .ok cloud_filtered =>
         if cloud_filtered.length < 20 then .ok (s, none)
         else
           match s.best_candidate with
           | none => .error PCErr.nullCandidateDeref
           | some best =>
             let r := updateCandidateFromPointCloud s.new_detection
               s.n_images_without_detection best cloud_filtered
             match earthBaseTf with
             | none => .error PCErr.uncaughtTfException
             | some vpos =>
               if distSq r.2.1.point vpos < 1 / 4 then
                 .ok ({ s with
                         current_phase := Phase.TOO_NEAR_TO_DETECT,
                         best_candidate := some r.2.1,
                         n_images_without_detection := r.2.2 }, none)
               else
                 .ok ({ s with
                         best_candidate := some r.2.1,
                         n_images_without_detection := r.2.2 },
                      some cloud_filtered))
    | _, _ => .ok (s, none)

/-- An earth transform that is the identity and always yields finite
coordinates (a concrete instance for witnesses). -/
def idTf : Point3 → Point3 × Bool := fun p => (p, true)

/-- A concrete rigid translation by (5,5,5), used as an earth transform for
the detection path. -/
def shiftTf : Point3 → Point3 := fun p => ⟨p.x + 5, p.y + 5, p.z + 5⟩

/-- A concrete tracked candidate sitting at the origin. -/
def originCandidate : Candidate := ⟨1, 1/2, "box", ⟨0, 0, 0⟩⟩

/-- A concrete 20-point cloud, all points at the origin. -/
def demoCloud : List Point3 := List.replicate 20 ⟨0, 0, 0⟩

/-- Point-cloud state in phase `ONLY_DEPTH_DETECTION` with a best candidate. -/
def demoPCState : PCState := ⟨Phase.ONLY_DEPTH_DETECTION, some originCandidate, false, 0⟩

/-- Point-cloud state already in phase `TOO_NEAR_TO_DETECT`. -/
def nearPCState : PCState := ⟨Phase.TOO_NEAR_TO_DETECT, some originCandidate, false, 0⟩

/-- Point-cloud state in phase `ONLY_DEPTH_DETECTION` whose best-candidate
pointer is null. -/
def nullPCState : PCState := ⟨Phase.ONLY_DEPTH_DETECTION, none, false, 0⟩

/-- A concrete detection of class "box" centered at pixel (320,240). -/
def demoDet : Detection := ⟨"box", 9/10, 320, 240⟩

/-- Detection state with RGB image, depth image (constant depth 2) and
calibration all present. -/
def demoCalibState : DetState :=
  ⟨true, some fun _ _ => DVal.fin 2, true, 500, 500, 320, 240, []⟩

/-- Detection state with RGB image and calibration present but no depth image
yet (empty `cv::Mat`). -/
def demoNoDepthState : DetState := { demoCalibState with depth_img := none }

/-- A cloud point that fails the finiteness or radius test does not survive. -/
theorem surviving_cons_skip (T : Point3 → Point3 × Bool) (c p : Point3)
    (ps : List Point3) (h : ¬((T p).2 = true ∧ distSq (T p).1 c ≤ 1 / 4)) :
    surviving T c (p :: ps) = surviving T c ps := by
  unfold surviving
  rw [List.filterMap_cons_none]
  rw [if_neg h]

/-- A cloud point that passes both tests survives, in order. -/
theorem surviving_cons_keep (T : Point3 → Point3 × Bool) (c p : Point3)
    (ps : List Point3) (h : (T p).2 = true ∧ distSq (T p).1 c ≤ 1 / 4) :
    surviving T c (p :: ps) = (T p).1 :: surviving T c ps := by
  unfold surviving
  rw [List.filterMap_cons_some]
  rw [if_pos h]

/-- With a non-null best candidate the filtering loop never fails and computes
exactly the surviving points. -/
theorem filterLoop_some (T : Point3 → Point3 × Bool) (c : Point3) :
    ∀ cloud : List Point3, filterLoop T (some c) cloud = .ok (surviving T c cloud)
  | [] => rfl
  | p :: ps => by
    have ih := filterLoop_some T c ps
    by_cases h2 : (T p).2 = false
    · rw [surviving_cons_skip T c p ps (by rintro ⟨ht, -⟩; rw [h2] at ht; cases ht)]
      rw [← ih]
      simp [filterLoop, h2]
    · have h2t : (T p).2 = true := by
        cases hv : (T p).2
        · exact absurd hv h2
        · rfl
      by_cases hd : distSq (T p).1 c > 1 / 4
      · rw [surviving_cons_skip T c p ps
          (by rintro ⟨-, hle⟩; exact absurd hle (not_le.mpr hd))]
        rw [← ih]
        simp [filterLoop, h2t, hd]
        intro hle
        rw [one_div] at hd
        exact absurd hle (not_le.mpr hd)
      · rw [surviving_cons_keep T c p ps ⟨h2t, not_lt.mp hd⟩]
        simp [filterLoop, h2t, hd, ih]
        rw [one_div] at hd
        exact not_lt.mp hd

/-- With a null best candidate the filtering loop dereferences the null
pointer as soon as one point has a finite earth-frame transform. -/
theorem filterLoop_none_err (T : Point3 → Point3 × Bool) :
    ∀ cloud : List Point3, (∃ p ∈ cloud, (T p).2 = true) →
      filterLoop T none cloud = .error PCErr.nullCandidateDeref
  | [], h => by simp at h
  | p :: ps, h => by
    unfold filterLoop
    by_cases h2 : (T p).2 = false
    · rw [if_pos h2]
      apply filterLoop_none_err
      rcases h with ⟨q, hq, hfin⟩
      rcases List.mem_cons.mp hq with rfl | hq
      · rw [h2] at hfin; cases hfin
      · exact ⟨q, hq, hfin⟩
    · rw [if_neg h2]

/-- The max-z scan returns its seed or an element of the list. -/
theorem maxZAux_mem : ∀ (l : List Point3) (cur : Point3),
    maxZAux cur l = cur ∨ maxZAux cur l ∈ l
  | [], cur => Or.inl rfl
  | p :: ps, cur => by
    unfold maxZAux
    rcases maxZAux_mem ps (if cur.z < p.z then p else cur) with h | h
    · rw [h]
      by_cases hc : cur.z < p.z
      · rw [if_pos hc]; exact Or.inr (List.mem_cons_self p ps)
      · rw [if_neg hc]; exact Or.inl rfl
    · exact Or.inr (List.mem_cons_of_mem p h)

/-- The max-z scan dominates its seed and every element of the list. -/
theorem maxZAux_ge : ∀ (l : List Point3) (cur : Point3),
    cur.z ≤ (maxZAux cur l).z ∧ ∀ p ∈ l, p.z ≤ (maxZAux cur l).z
  | [], cur => ⟨le_refl _, by simp⟩
  | p :: ps, cur => by
    unfold maxZAux
    have ih := maxZAux_ge ps (if cur.z < p.z then p else cur)
    have hseed : cur.z ≤ (if cur.z < p.z then p else cur).z ∧
        p.z ≤ (if cur.z < p.z then p else cur).z := by
      by_cases hc : cur.z < p.z
      · rw [if_pos hc]; exact ⟨le_of_lt hc, le_refl _⟩
      · rw [if_neg hc]; exact ⟨le_refl _, not_lt.mp hc⟩
    refine ⟨le_trans hseed.1 ih.1, ?_⟩
    intro q hq
    rcases List.mem_cons.mp hq with rfl | hq
    · exact le_trans hseed.2 ih.1
    · exact ih.2 q hq

/-- On a nonempty cloud the selected point is one of the cloud's points. -/
theorem maxZPoint_mem (l : List Point3) (h : l ≠ []) : maxZPoint l ∈ l := by
  match l with
  | [] => exact absurd rfl h
  | p :: ps =>
    show maxZAux p ps ∈ p :: ps
    rcases maxZAux_mem ps p with he | he
    · rw [he]; exact List.mem_cons_self p ps
    · exact List.mem_cons_of_mem p he

/-- The selected point has the maximal z coordinate of the cloud. -/
theorem maxZPoint_ge (l : List Point3) : ∀ p ∈ l, p.z ≤ (maxZPoint l).z := by
  match l with
  | [] => simp
  | q :: qs =>
    intro p hp
    unfold maxZPoint
    rcases List.mem_cons.mp hp with rfl | hp
    · exact (maxZAux_ge qs p).1
    · exact (maxZAux_ge qs q).2 p hp

/-- Updating the matched candidate preserves the store's length. -/
theorem updateMatched_length (score : ℚ) (q : Point3) :
    ∀ (cs : List Candidate) (i : ℕ),
      (updateMatched score q cs i).length = cs.length
  | [], _ => rfl
  | _ :: _, 0 => rfl
  | _ :: cs, i + 1 => congrArg Nat.succ (updateMatched_length score q cs i)

/-- The matched candidate is re-averaged and its position overwritten. -/
theorem updateMatched_get_self (score : ℚ) (q : Point3) :
    ∀ (cs : List Candidate) (i : ℕ) (c : Candidate), cs.get? i = some c →
      (updateMatched score q cs i).get? i =
        some { c with confidence := (c.confidence + score) / 2, point := q }
  | [], i, c, h => by simp [List.get?] at h
  | a :: cs, 0, c, h => by
    rw [List.get?] at h
    cases h
    rfl
  | a :: cs, i + 1, c, h => by
    rw [List.get?] at h
    unfold updateMatched
    rw [List.get?]
    exact updateMatched_get_self score q cs i c h

/-- Candidates other than the matched one are untouched. -/
theorem updateMatched_get_other (score : ℚ) (q : Point3) :
    ∀ (cs : List Candidate) (i j : ℕ), j ≠ i →
      (updateMatched score q cs i).get? j = cs.get? j
  | [], _, _, _ => rfl
  | a :: cs, 0, 0, h => absurd rfl h
  | a :: cs, 0, j + 1, _ => by
    unfold updateMatched
    rw [List.get?, List.get?]
  | a :: cs, i + 1, 0, _ => by
    unfold updateMatched
    rw [List.get?, List.get?]
  | a :: cs, i + 1, j + 1, h => by
    unfold updateMatched
    rw [List.get?, List.get?]
    exact updateMatched_get_other score q cs i j (fun hji => h (congrArg Nat.succ hji))

/-- A cloud of `n` identical points all of which pass the filter survives
whole. -/
theorem surviving_replicate (T : Point3 → Point3 × Bool) (c p : Point3)
    (h2 : (T p).2 = true) (hd : distSq (T p).1 c ≤ 1 / 4) :
    ∀ n : ℕ, surviving T c (List.replicate n p) = List.replicate n (T p).1
  | 0 => rfl
  | n + 1 => by
    unfold surviving
    rw [List.replicate_succ, List.filterMap_cons_some]
    · rw [List.replicate_succ]
      have ih := surviving_replicate T c p h2 hd n
      unfold surviving at ih
      rw [ih]
    · rw [if_pos ⟨h2, hd⟩]

/-- In phase `ONLY_DEPTH_DETECTION` the redundant entry guard of
`pointCloudCallback` is false. -/
theorem pcGate_false (s : PCState)
    (hp : s.current_phase = Phase.ONLY_DEPTH_DETECTION) :
    ¬(s.current_phase = Phase.VISUAL_DETECTION_WITH_DEPTH ∨
      s.current_phase ≠ Phase.ONLY_DEPTH_DETECTION) := by
  rw [hp]
  simp

/-- The concrete 20-point demo cloud survives the filter whole around the
origin candidate under the identity transform. -/
theorem surviving_demoCloud :
    surviving idTf originCandidate.point demoCloud =
      List.replicate 20 ⟨0, 0, 0⟩ := by
  have h := surviving_replicate idTf originCandidate.point ⟨0, 0, 0⟩ rfl
    (by norm_num [distSq, idTf, originCandidate]) 20
  simpa [demoCloud, idTf] using h

/-- Claim C5: the point-cloud handler performs work only while the phase
equals `ONLY_DEPTH_DETECTION`; in every other phase (in particular
`TOO_NEAR_TO_DETECT`) it returns at once with the state unchanged and nothing
published, so once the phase is `TOO_NEAR_TO_DETECT` the point-cloud path
never changes the phase or the best candidate again. -/
theorem C5_phase_gating (s : PCState) (cloud : List Point3)
    (earthTf : Option (Point3 → Point3 × Bool)) (baseTfOk : Bool)
    (earthBaseTf : Option Point3)
    (h : s.current_phase ≠ Phase.ONLY_DEPTH_DETECTION) :
    pointCloudCallback s cloud earthTf baseTfOk earthBaseTf = .ok (s, none) := by
  unfold pointCloudCallback
  rw [if_pos (Or.inr h)]

/-- Witness for C5: in phase `TOO_NEAR_TO_DETECT` the handler is a no-op. -/
theorem C5_phase_gating_witness :
    pointCloudCallback nearPCState demoCloud (some idTf) true none =
      .ok (nearPCState, none) :=
  C5_phase_gating nearPCState demoCloud (some idTf) true none (by decide)

/-- Claim C6: when fewer than 20 points survive the finiteness and 0.5-radius
filter, `pointCloudCallback` returns before any update: the state (best
candidate and phase included) is unchanged and no filtered cloud is
published. -/
theorem C6_insufficient_support (s : PCState) (cloud : List Point3)
    (T : Point3 → Point3 × Bool) (earthBaseTf : Option Point3) (c : Candidate)
    (hp : s.current_phase = Phase.ONLY_DEPTH_DETECTION)
    (hb : s.best_candidate = some c)
    (hlen : (surviving T c.point cloud).length < 20) :
    pointCloudCallback s cloud (some T) true earthBaseTf = .ok (s, none) := by
  simp only [pointCloudCallback]
  rw [if_neg (pcGate_false s hp)]
  simp only [hb, Option.map_some', filterLoop_some]
  rw [if_pos hlen]

/-- Witness for C6: an empty cloud (0 surviving points) leaves the state
unchanged and publishes nothing. -/
theorem C6_insufficient_support_witness :
    pointCloudCallback demoPCState [] (some idTf) true none =
      .ok (demoPCState, none) :=
  C6_insufficient_support demoPCState [] idTf none originCandidate rfl rfl
    (by norm_num [surviving])

/-- Claim C7: with at least 20 surviving points the best candidate's position
after the update is a surviving point (finite earth-frame transform, within
Euclidean distance 0.5 of the pre-update candidate position) of maximal z
coordinate. -/
theorem C7_max_z_refinement (s : PCState) (cloud : List Point3)
    (T : Point3 → Point3 × Bool) (vpos : Point3) (c : Candidate)
    (hp : s.current_phase = Phase.ONLY_DEPTH_DETECTION)
    (hb : s.best_candidate = some c)
    (hlen : 20 ≤ (surviving T c.point cloud).length) :
    ∃ s2 pub,
      pointCloudCallback s cloud (some T) true (some vpos) = .ok (s2, pub) ∧
      ∃ c2, s2.best_candidate = some c2 ∧
        c2.point ∈ surviving T c.point cloud ∧
        ∀ p ∈ surviving T c.point cloud, p.z ≤ c2.point.z := by
  have hne : surviving T c.point cloud ≠ [] := by
    intro h0
    rw [h0] at hlen
    simp at hlen
  simp only [pointCloudCallback]
  rw [if_neg (pcGate_false s hp)]
  simp only [hb, Option.map_some', filterLoop_some]
  rw [if_neg (not_lt.mpr hlen)]
  simp only [updateCandidateFromPointCloud]
  by_cases hdist :
      distSq (maxZPoint (surviving T c.point cloud)) vpos < 1 / 4
  · rw [if_pos hdist]
    exact ⟨_, _, rfl, _, rfl, maxZPoint_mem _ hne, maxZPoint_ge _⟩
  · rw [if_neg hdist]
    exact ⟨_, _, rfl, _, rfl, maxZPoint_mem _ hne, maxZPoint_ge _⟩

/-- Witness for C7: on the 20-point demo cloud the update selects a surviving
point of maximal z. -/
theorem C7_max_z_refinement_witness :
    ∃ s2 pub,
      pointCloudCallback demoPCState demoCloud (some idTf) true
        (some ⟨10, 0, 0⟩) = .ok (s2, pub) ∧
      ∃ c2, s2.best_candidate = some c2 ∧
        c2.point ∈ surviving idTf originCandidate.point demoCloud ∧
        ∀ p ∈ surviving idTf originCandidate.point demoCloud,
          p.z ≤ c2.point.z :=
  C7_max_z_refinement demoPCState demoCloud idTf ⟨10, 0, 0⟩ originCandidate
    rfl rfl (by rw [surviving_demoCloud]; simp)

/-- Claim C2 (amended): the two `lookupTransform` calls that resolve the
cloud's transforms at the start of `pointCloudCallback` are guarded by
try/catch — failure of either is non-fatal, the message is dropped and the
state is unchanged. -/
theorem C2_guarded_initial_lookups (s : PCState) (cloud : List Point3)
    (earthTf : Option (Point3 → Point3 × Bool)) (baseTfOk : Bool)
    (earthBaseTf : Option Point3)
    (h : earthTf = none ∨ baseTfOk = false) :
    pointCloudCallback s cloud earthTf baseTfOk earthBaseTf = .ok (s, none) := by
  unfold pointCloudCallback
  by_cases hg : s.current_phase = Phase.VISUAL_DETECTION_WITH_DEPTH ∨
      s.current_phase ≠ Phase.ONLY_DEPTH_DETECTION
  · rw [if_pos hg]
  · rw [if_neg hg]
    rcases h with rfl | rfl
    · cases baseTfOk <;> rfl
    · cases earthTf <;> rfl

/-- Witness for the amended C2: a failing first lookup drops the message. -/
theorem C2_guarded_initial_lookups_witness :
    pointCloudCallback demoPCState demoCloud none true none =
      .ok (demoPCState, none) :=
  C2_guarded_initial_lookups demoPCState demoCloud none true none (Or.inl rfl)

/-- Counterexample to C2 as stated: the third `lookupTransform`
("earth" ← base_frame, depthtection.cpp:302-305) sits outside every
try/catch, so on a cloud that reaches it (phase `ONLY_DEPTH_DETECTION`, valid
initial transforms, 20 surviving points) a failing lookup escapes the handler
as an uncaught exception instead of being logged and dropped. -/
theorem C2_counterexample :
    pointCloudCallback demoPCState demoCloud (some idTf) true none =
      .error PCErr.uncaughtTfException := by
  simp only [pointCloudCallback]
  rw [if_neg (pcGate_false demoPCState rfl)]
  have hb : demoPCState.best_candidate = some originCandidate := rfl
  simp only [hb, Option.map_some', filterLoop_some, surviving_demoCloud]
  simp [updateCandidateFromPointCloud]

/-- Claim C10: on the point-cloud path in phase `ONLY_DEPTH_DETECTION` the
best-candidate pointer is dereferenced without a null guard as soon as one
cloud point has a finite earth-frame transform (undefined behaviour when the
pointer is null); with a non-null best candidate that dereference never
fails.  No code on the path establishes the non-null precondition. -/
theorem C10_null_best_deref (s : PCState) (cloud : List Point3)
    (T : Point3 → Point3 × Bool) (earthBaseTf : Option Point3)
    (hp : s.current_phase = Phase.ONLY_DEPTH_DETECTION) :
    (s.best_candidate = none → (∃ p ∈ cloud, (T p).2 = true) →
      pointCloudCallback s cloud (some T) true earthBaseTf =
        .error PCErr.nullCandidateDeref) ∧
    (∀ c, s.best_candidate = some c →
      pointCloudCallback s cloud (some T) true earthBaseTf ≠
        .error PCErr.nullCandidateDeref) := by
  constructor
  · intro hb hfin
    simp only [pointCloudCallback]
    rw [if_neg (pcGate_false s hp)]
    simp [hb, filterLoop_none_err T cloud hfin]
  · intro c hb
    simp only [pointCloudCallback]
    rw [if_neg (pcGate_false s hp)]
    simp only [hb, Option.map_some', filterLoop_some]
    by_cases hlen : (surviving T c.point cloud).length < 20
    · rw [if_pos hlen]
      simp
    · rw [if_neg hlen]
      cases earthBaseTf with
      | none => simp [updateCandidateFromPointCloud]
      | some vpos =>
        simp only [updateCandidateFromPointCloud]
        split <;> simp

/-- Witness for C10: a null best candidate plus one finite point is undefined
behaviour (modelled as the null-dereference error). -/
theorem C10_null_best_deref_witness :
    pointCloudCallback nullPCState demoCloud (some idTf) true none =
      .error PCErr.nullCandidateDeref :=
  (C10_null_best_deref nullPCState demoCloud idTf none rfl).1 rfl
    ⟨⟨0, 0, 0⟩, List.mem_replicate.mpr ⟨by decide, rfl⟩, rfl⟩

/-- Claim C1 (code bug): the data guard of `detectionCallback` is
`if (!depth_img_.empty() || !haveCalibration_) return;` — the emptiness test
is inverted.  With a depth image AND calibration present (first conjunct) the
handler returns at the guard without creating the candidate the claim
promises; with calibration but no depth image yet (second conjunct) it passes
the guard and reads the empty depth image (undefined behaviour) instead of
logging and returning. -/
theorem C1_inverted_data_guard :
    detectionCallback demoCalibState "box" (some shiftTf) [demoDet] =
      .ok demoCalibState ∧
    detectionCallback demoNoDepthState "box" (some shiftTf) [demoDet] =
      .error DetErr.emptyDepthRead :=
  ⟨rfl, rfl⟩

/-- Counterexample to C3 as stated: a zero depth sample produces the sentinel
zero point, and the per-detection body forwards it — transformed to
(5,5,5) by the earth transform — into the matcher, creating a candidate,
instead of discarding it. -/
theorem C3_counterexample :
    processDetection (fun _ _ => DVal.fin 0) 500 500 320 240 (some shiftTf)
      [] demoDet = some [⟨1, 9/10, "box", ⟨5, 5, 5⟩⟩] := by
  norm_num [processDetection, get_point_from_depth, candidateUpdateStep,
    match_candidate, shiftTf, demoDet]

/-- Claim C3 (amended): for a depth sample of 0 or +∞ at the queried pixel
the projector returns the sentinel zero point, but the detection handler does
not discard it: the per-detection body forwards the sentinel through the
frame transform into the candidate matcher like any valid observation. -/
theorem C3_sentinel_not_discarded (dimg : ℤ → ℤ → DVal) (fx fy cx cy : ℚ)
    (T : Point3 → Point3) (cs : List Candidate) (det : Detection)
    (hd : dimg det.center_y det.center_x = DVal.fin 0 ∨
          dimg det.center_y det.center_x = DVal.inf) :
    get_point_from_depth dimg det.center_x det.center_y fx fy cx cy =
      ⟨0, 0, 0⟩ ∧
    processDetection dimg fx fy cx cy (some T) cs det =
      some (candidateUpdateStep cs det.class_id det.score (T ⟨0, 0, 0⟩)) := by
  have hp : get_point_from_depth dimg det.center_x det.center_y fx fy cx cy =
      ⟨0, 0, 0⟩ := by
    rcases hd with h | h <;> simp [get_point_from_depth, h]
  exact ⟨hp, by simp [processDetection, hp]⟩

/-- Witness for the amended C3: an infinite depth sample yields the sentinel
and still reaches the matcher. -/
theorem C3_sentinel_not_discarded_witness :
    get_point_from_depth (fun _ _ => DVal.inf) 320 240 500 500 320 240 =
      ⟨0, 0, 0⟩ ∧
    processDetection (fun _ _ => DVal.inf) 500 500 320 240 (some shiftTf)
      [] demoDet =
      some (candidateUpdateStep [] demoDet.class_id demoDet.score
        (shiftTf ⟨0, 0, 0⟩)) :=
  C3_sentinel_not_discarded (fun _ _ => DVal.inf) 500 500 320 240 shiftTf []
    demoDet (Or.inr rfl)

/-- Claim C4: an observation matching an existing candidate of the same class
within the distance threshold re-averages that candidate's confidence to
(old + new) / 2 and overwrites its position, leaving the store's length and
every other candidate unchanged; with no match a new candidate is appended
with the fresh sequential id `length + 1`, the observed score as initial
confidence and the observed point, so the candidate count increases by
exactly one. -/
theorem C4_match_or_create (cs : List Candidate) (cls : String) (score : ℚ)
    (q : Point3) :
    (match_candidate cs cls q 1 = none →
      candidateUpdateStep cs cls score q =
        cs ++ [⟨cs.length + 1, score, cls, q⟩] ∧
      (candidateUpdateStep cs cls score q).length = cs.length + 1) ∧
    (∀ i c, match_candidate cs cls q 1 = some i → cs.get? i = some c →
      (candidateUpdateStep cs cls score q).length = cs.length ∧
      (candidateUpdateStep cs cls score q).get? i =
        some { c with confidence := (c.confidence + score) / 2, point := q } ∧
      ∀ j, j ≠ i →
        (candidateUpdateStep cs cls score q).get? j = cs.get? j) := by
  constructor
  · intro h
    simp only [candidateUpdateStep, h]
    simp
  · intro i c hm hc
    simp only [candidateUpdateStep, hm]
    exact ⟨updateMatched_length score q cs i,
           updateMatched_get_self score q cs i c hc,
           fun j hj => updateMatched_get_other score q cs i j hj⟩

/-- Witness for C4: creating from an empty store appends id 1; a matching
observation 0.1 away re-averages the confidence and overwrites the point. -/
theorem C4_match_or_create_witness :
    candidateUpdateStep [] "box" (9/10) ⟨5, 5, 5⟩ =
      [⟨1, 9/10, "box", ⟨5, 5, 5⟩⟩] ∧
    (candidateUpdateStep [originCandidate] "box" (9/10)
        ⟨1/10, 0, 0⟩).get? 0 =
      some ⟨1, (1/2 + 9/10) / 2, "box", ⟨1/10, 0, 0⟩⟩ := by
  constructor
  · exact ((C4_match_or_create [] "box" (9/10) ⟨5, 5, 5⟩).1 rfl).1
  · exact ((C4_match_or_create [originCandidate] "box" (9/10)
      ⟨1/10, 0, 0⟩).2 0 originCandidate
      (by norm_num [match_candidate, List.findIdx?_cons, originCandidate,
        distSq]) rfl).2.1

/-- Claim C8: for a valid depth sample the projector applies the pinhole
back-projection x = (u - cx) d / fx, y = (v - cy) d / fy, z = d with no
distortion correction; in particular fx = fy = 500, cx = 320, cy = 240,
pixel (320,240) and depth 2 give (0, 0, 2). -/
theorem C8_pinhole_backprojection (u v : ℤ) (d fx fy cx cy : ℚ)
    (dimg : ℤ → ℤ → DVal) (hd : dimg v u = DVal.fin d) (h0 : d ≠ 0) :
    get_point_from_depth dimg u v fx fy cx cy =
      ⟨((u : ℚ) - cx) * d / fx, ((v : ℚ) - cy) * d / fy, d⟩ ∧
    get_point_from_depth (fun _ _ => DVal.fin 2) 320 240 500 500 320 240 =
      ⟨0, 0, 2⟩ := by
  constructor
  · simp [get_point_from_depth, hd, h0]
  · norm_num [get_point_from_depth]

/-- Witness for C8 at the spec's end-to-end scenario. -/
theorem C8_pinhole_backprojection_witness :
    get_point_from_depth (fun _ _ => DVal.fin 2) 320 240 500 500 320 240 =
      ⟨0, 0, 2⟩ :=
  (C8_pinhole_backprojection 320 240 2 500 500 320 240
    (fun _ _ => DVal.fin 2) rfl (by norm_num)).2

/-- Claim C9: reprojecting the projector's output through the same intrinsics
(u = x fx / z + cx, v = y fy / z + cy, d = z) recovers the pixel and depth
exactly, for nonzero fx, fy and a valid depth. -/
theorem C9_reprojection_consistency (u v : ℤ) (d fx fy cx cy : ℚ)
    (h0 : d ≠ 0) (hfx : fx ≠ 0) (hfy : fy ≠ 0) :
    reproject (get_point_from_depth (fun _ _ => DVal.fin d) u v fx fy cx cy)
      fx fy cx cy = ((u : ℚ), (v : ℚ), d) := by
  simp only [get_point_from_depth, reproject, if_neg h0]
  refine Prod.ext ?_ (Prod.ext ?_ rfl) <;> field_simp

/-- Witness for C9 at the spec's end-to-end scenario. -/
theorem C9_reprojection_consistency_witness :
    reproject
      (get_point_from_depth (fun _ _ => DVal.fin 2) 320 240 500 500 320 240)
      500 500 320 240 = (320, 240, 2) :=
  C9_reprojection_consistency 320 240 2 500 500 320 240 (by norm_num)
    (by norm_num) (by norm_num)
